import Mathlib

/-!
Shallow embedding of the VeSync Home Assistant integration
(custom_components/vesync): the device classifier `async_process_devices`
and the entity-adapter layer of `common.py`, `switch.py` and
`diagnostics.py`, together with theorems settling the specification's
claims about them.

Vendor device objects are modelled as records.  Python duck typing
(`getattr(dev, "set_auto_mode", None)`, `hasattr(state, "weekly_history")`)
is modelled by explicit boolean presence flags; a state attribute that may
be `None` is modelled as an `Option`.  Log statements are modelled as an
explicit list of log events returned next to the classifier's result, so
that the side-effect claims become statements about that list, and an
adapter command method is modelled as the trace of vendor commands it
issues.
-/

/-- State sub-object of a vendor device (`device.state`).
`connection_status` is `Option String`: `none` models a `None`-valued
status (Python `None == "online"` is `False`).  `has_weekly_history`
models `hasattr(state, "weekly_history")`; the energy fields are only
meaningful when it is `true`. -/
structure VsState where
  connection_status : Option String
  device_status : String
  mode : String
  child_lock : Bool
  display_status : Bool
  automatic_stop : Bool
  has_weekly_history : Bool
  voltage : Int
  weekly_history : Int
  monthly_history : Int
  yearly_history : Int
deriving DecidableEq, Repr

/-- A vendor device object.  The `has_*` flags model the truthiness of
`getattr(dev, "<method>", None)` for the four capability methods probed by
`switch._setup_entities`; `supports_dimmable` is the attribute read by the
classifier on generic switches.  `sub_device_no` is `some n` exactly when
`isinstance(device.sub_device_no, int)` holds. -/
structure VsDevice where
  cid : String
  sub_device_no : Option Int
  device_name : String
  device_type : String
  current_firm_version : String
  supports_dimmable : Bool
  has_set_auto_mode : Bool
  has_turn_on_automatic_stop : Bool
  has_turn_on_display : Bool
  has_turn_on_child_lock : Bool
  state : VsState
deriving DecidableEq, Repr

/-- The vendor session's device collection (`manager.devices`), exposing
the separately-typed sub-collections the classifier reads. -/
structure ManagerDevices where
  fans : List VsDevice
  air_purifiers : List VsDevice
  humidifiers : List VsDevice
  bulbs : List VsDevice
  outlets : List VsDevice
  switches : List VsDevice
  air_fryers : List VsDevice
deriving DecidableEq, Repr

/-- The platform routing table built by `async_process_devices`: one list
per platform key (`VS_SWITCHES`, `VS_FANS`, `VS_LIGHTS`, `VS_SENSORS`,
`VS_HUMIDIFIERS`, `VS_NUMBERS`, `VS_BINARY_SENSORS`, `VS_BUTTON`).  Every
key is always present; a record field cannot be absent or null. -/
structure PlatformDevices where
  switches : List VsDevice
  fans : List VsDevice
  lights : List VsDevice
  sensors : List VsDevice
  humidifiers : List VsDevice
  numbers : List VsDevice
  binary_sensors : List VsDevice
  button : List VsDevice
deriving DecidableEq, Repr

/-- Log events emitted by `async_process_devices` (`_LOGGER.debug`,
`_LOGGER.error`, `_LOGGER.warning`), modelled as data. -/
inductive LogEvent where
  | debugFoundDevices (redacted : List (String × String))
  | errorNoDevices (redacted : List (String × String))
  | warningAirFryerInProgress (device_name : String)
deriving DecidableEq, Repr

/-- Keys redacted from operator-facing output (`TO_REDACT` in
`diagnostics.py`, and the literal list in `common.async_process_devices`). -/
def TO_REDACT : List String := ["cid", "uuid", "mac_id"]

/-- Embedding of `homeassistant.components.diagnostics.async_redact_data`
for a flat string-keyed mapping: the value of every entry whose key is in
the redaction set is replaced by the redaction marker. -/
def async_redact_data (data : List (String × String)) (to_redact : List String) :
    List (String × String) :=
  data.map fun kv => if kv.1 ∈ to_redact then (kv.1, "**REDACTED**") else kv

/-- Iteration over `manager.devices` (the flat view of every category),
used only for the redacted debug log. -/
def all_devices (m : ManagerDevices) : List VsDevice :=
  m.fans ++ m.air_purifiers ++ m.humidifiers ++ m.bulbs ++ m.outlets
    ++ m.switches ++ m.air_fryers

/-- One iteration of the `for fan in manager.devices.fans` loop of
`async_process_devices` (the `for purifier in ...air_purifiers` loop has
the identical body). -/
def add_fan (devices : PlatformDevices) (fan : VsDevice) : PlatformDevices :=
  { devices with
    fans := devices.fans ++ [fan]
    numbers := devices.numbers ++ [fan]
    switches := devices.switches ++ [fan]
    sensors := devices.sensors ++ [fan]
    binary_sensors := devices.binary_sensors ++ [fan]
    lights := devices.lights ++ [fan] }

/-- One iteration of the `for humidifier in manager.devices.humidifiers`
loop of `async_process_devices`. -/
def add_humidifier (devices : PlatformDevices) (humidifier : VsDevice) :
    PlatformDevices :=
  { devices with
    humidifiers := devices.humidifiers ++ [humidifier]
    numbers := devices.numbers ++ [humidifier]
    switches := devices.switches ++ [humidifier]
    sensors := devices.sensors ++ [humidifier]
    binary_sensors := devices.binary_sensors ++ [humidifier]
    lights := devices.lights ++ [humidifier] }

/-- One iteration of the `for switch in manager.devices.switches` loop:
non-dimmable switches go to `VS_SWITCHES`, dimmable ones to `VS_LIGHTS`. -/
def add_switch (devices : PlatformDevices) (switch : VsDevice) : PlatformDevices :=
  if !switch.supports_dimmable then
    { devices with switches := devices.switches ++ [switch] }
  else
    { devices with lights := devices.lights ++ [switch] }

/-- One iteration of the `for airfryer in manager.devices.air_fryers`
loop (its warning log is collected separately, in loop order). -/
def add_air_fryer (devices : PlatformDevices) (airfryer : VsDevice) :
    PlatformDevices :=
  { devices with
    sensors := devices.sensors ++ [airfryer]
    binary_sensors := devices.binary_sensors ++ [airfryer]
    switches := devices.switches ++ [airfryer]
    button := devices.button ++ [airfryer] }

/-- Embedding of `common.async_process_devices`: builds the platform
routing table from the manager's device collection and returns it together
with the list of log events it emits, in emission order. -/
def async_process_devices (manager : ManagerDevices) :
    PlatformDevices × List LogEvent :=
  let devices : PlatformDevices :=
    { switches := [], fans := [], lights := [], sensors := []
      humidifiers := [], numbers := [], binary_sensors := [], button := [] }
  let redacted := async_redact_data
    ((all_devices manager).map fun d => (d.device_name, d.device_type)) TO_REDACT
  let logs : List LogEvent := [LogEvent.debugFoundDevices redacted]
  let logs := if manager.bulbs.isEmpty && manager.fans.isEmpty
      && manager.air_fryers.isEmpty && manager.outlets.isEmpty
      && manager.switches.isEmpty && manager.humidifiers.isEmpty
      && manager.air_purifiers.isEmpty then
    logs ++ [LogEvent.errorNoDevices redacted]
  else logs
  let devices := manager.fans.foldl add_fan devices
  let devices := manager.air_purifiers.foldl add_fan devices
  let devices := manager.humidifiers.foldl add_humidifier devices
  let devices := if manager.bulbs.isEmpty then devices
    else { devices with lights := devices.lights ++ manager.bulbs }
  let devices := if manager.outlets.isEmpty then devices
    else { devices with
      switches := devices.switches ++ manager.outlets
      sensors := devices.sensors ++ manager.outlets }
  let devices := manager.switches.foldl add_switch devices
  let logs := logs
    ++ manager.air_fryers.map fun a => LogEvent.warningAirFryerInProgress a.device_name
  let devices := manager.air_fryers.foldl add_air_fryer devices
  (devices, logs)

/-- The switch adapter classes constructed by `switch._setup_entities`,
one constructor per Python class. -/
inductive SwitchEntityKind where
  | veSyncSwitchHA
  | veSyncLightSwitch
  | veSyncHumidifierAutoOnHA
  | veSyncHumidifierAutomaticStopHA
  | veSyncHumidifierDisplayHA
  | veSyncFanChildLockHA
deriving DecidableEq, Repr

/-- Modelled from the spec: the `DEV_TYPE_TO_HA` lookup table lives in
`const.py`, which is not part of the sources; the spec only says the
classifier and adapters branch on a device's declared model/type string.
It is therefore kept abstract: every theorem about `_setup_entities`
quantifies over an arbitrary type-to-platform lookup. -/
def DevTypeToHa : Type := String → Option String

/-- Body of the `for dev in devices` loop of `switch._setup_entities`:
the two type-table checks followed by the four capability probes, each
appending one adapter to `entities` when its condition holds. -/
def setup_step (dev_type_to_ha : DevTypeToHa)
    (entities : List (SwitchEntityKind × VsDevice)) (dev : VsDevice) :
    List (SwitchEntityKind × VsDevice) :=
  let entities := if dev_type_to_ha dev.device_type = some "outlet" then
    entities ++ [(SwitchEntityKind.veSyncSwitchHA, dev)] else entities
  let entities := if dev_type_to_ha dev.device_type = some "switch" then
    entities ++ [(SwitchEntityKind.veSyncLightSwitch, dev)] else entities
  let entities := if dev.has_set_auto_mode then
    entities ++ [(SwitchEntityKind.veSyncHumidifierAutoOnHA, dev)] else entities
  let entities := if dev.has_turn_on_automatic_stop then
    entities ++ [(SwitchEntityKind.veSyncHumidifierAutomaticStopHA, dev)] else entities
  let entities := if dev.has_turn_on_display then
    entities ++ [(SwitchEntityKind.veSyncHumidifierDisplayHA, dev)] else entities
  let entities := if dev.has_turn_on_child_lock then
    entities ++ [(SwitchEntityKind.veSyncFanChildLockHA, dev)] else entities
  entities

/-- Embedding of `switch._setup_entities`: the ordered list of switch
adapters constructed for the devices handed to the platform. -/
def _setup_entities (dev_type_to_ha : DevTypeToHa) (devices : List VsDevice) :
    List (SwitchEntityKind × VsDevice) :=
  devices.foldl (setup_step dev_type_to_ha) []

/-- The adapters `setup_step` contributes for one device. -/
def entities_for (dev_type_to_ha : DevTypeToHa) (dev : VsDevice) :
    List (SwitchEntityKind × VsDevice) :=
  (if dev_type_to_ha dev.device_type = some "outlet" then
    [(SwitchEntityKind.veSyncSwitchHA, dev)] else [])
  ++ (if dev_type_to_ha dev.device_type = some "switch" then
    [(SwitchEntityKind.veSyncLightSwitch, dev)] else [])
  ++ (if dev.has_set_auto_mode then
    [(SwitchEntityKind.veSyncHumidifierAutoOnHA, dev)] else [])
  ++ (if dev.has_turn_on_automatic_stop then
    [(SwitchEntityKind.veSyncHumidifierAutomaticStopHA, dev)] else [])
  ++ (if dev.has_turn_on_display then
    [(SwitchEntityKind.veSyncHumidifierDisplayHA, dev)] else [])
  ++ (if dev.has_turn_on_child_lock then
    [(SwitchEntityKind.veSyncFanChildLockHA, dev)] else [])

/-- Embedding of `VeSyncBaseEntity.base_unique_id`: the device `cid`,
with `str(sub_device_no)` appended when that attribute is an `int`. -/
def VeSyncBaseEntity.base_unique_id (d : VsDevice) : String :=
  match d.sub_device_no with
  | some n => d.cid ++ toString n
  | none => d.cid

/-- Embedding of `VeSyncBaseEntity.unique_id` (returns `base_unique_id`). -/
def VeSyncBaseEntity.unique_id (d : VsDevice) : String :=
  VeSyncBaseEntity.base_unique_id d

/-- Embedding of `VeSyncBaseEntity.available`: true iff
`device.state.connection_status == "online"`. -/
def VeSyncBaseEntity.available (d : VsDevice) : Bool :=
  d.state.connection_status == some "online"

/-- Embedding of `VeSyncFanChildLockHA.unique_id`. -/
def VeSyncFanChildLockHA.unique_id (d : VsDevice) : String :=
  VeSyncBaseEntity.unique_id d ++ "-child-lock"

/-- Embedding of `VeSyncHumidifierDisplayHA.unique_id`. -/
def VeSyncHumidifierDisplayHA.unique_id (d : VsDevice) : String :=
  VeSyncBaseEntity.unique_id d ++ "-display"

/-- Embedding of `VeSyncHumidifierAutomaticStopHA.unique_id`. -/
def VeSyncHumidifierAutomaticStopHA.unique_id (d : VsDevice) : String :=
  VeSyncBaseEntity.unique_id d ++ "-automatic-stop"

/-- Embedding of `VeSyncHumidifierAutoOnHA.unique_id`. -/
def VeSyncHumidifierAutoOnHA.unique_id (d : VsDevice) : String :=
  VeSyncBaseEntity.unique_id d ++ "-auto-mode"

/-- Embedding of `VeSyncSwitchHA.extra_state_attributes`: the four energy
attributes when the state object carries a `weekly_history` attribute,
otherwise the empty mapping. -/
def VeSyncSwitchHA.extra_state_attributes (d : VsDevice) : List (String × Int) :=
  if d.state.has_weekly_history then
    [("voltage", d.state.voltage),
     ("weekly_energy_total", d.state.weekly_history),
     ("monthly_energy_total", d.state.monthly_history),
     ("yearly_energy_total", d.state.yearly_history)]
  else []

/-- A Home Assistant config entry, as far as the diagnostics handler
looks at it. -/
structure ConfigEntry where
  entry_id : String
deriving DecidableEq, Repr

/-- The `hass.data` reachable from the diagnostics handler: the manager's
device collection for the entry. -/
structure HassData where
  manager : ManagerDevices
deriving DecidableEq, Repr

/-- Embedding of `diagnostics.async_get_config_entry_diagnostics`: the
device-dump loop is commented out in the source, so `devices` stays the
empty mapping and only its redaction is returned. -/
def async_get_config_entry_diagnostics (hass : HassData) (entry : ConfigEntry) :
    List (String × String) :=
  let devices : List (String × String) := []
  async_redact_data devices TO_REDACT

/-- Commands of the vendor SDK invoked by the switch adapters, modelled
as data so that an adapter method's effect is its command trace. -/
inductive VendorCommand where
  | turn_on
  | turn_off
  | set_auto_mode
  | set_manual_mode
  | set_mist_level (level : Nat)
  | turn_on_child_lock
  | turn_off_child_lock
  | turn_on_display
  | turn_off_display
  | turn_on_automatic_stop
  | turn_off_automatic_stop
deriving DecidableEq, Repr

/-- Embedding of `VeSyncHumidifierAutoOnHA.async_turn_on`: the trace of
vendor commands it issues on its device. -/
def VeSyncHumidifierAutoOnHA.async_turn_on (d : VsDevice) : List VendorCommand :=
  [VendorCommand.set_auto_mode]

/-- Embedding of `VeSyncHumidifierAutoOnHA.async_turn_off`: the trace of
vendor commands it issues on its device. -/
def VeSyncHumidifierAutoOnHA.async_turn_off (d : VsDevice) : List VendorCommand :=
  [VendorCommand.set_manual_mode, VendorCommand.set_mist_level 1]

/-- A fully-populated sample device state used by the concrete witnesses. -/
def sample_state : VsState :=
  { connection_status := some "online", device_status := "on", mode := "manual"
    child_lock := false, display_status := true, automatic_stop := false
    has_weekly_history := false, voltage := 0, weekly_history := 0
    monthly_history := 0, yearly_history := 0 }

/-- A sample device with no probed capability, used by the witnesses. -/
def mk_device (cid : String) : VsDevice :=
  { cid := cid, sub_device_no := none, device_name := cid
    device_type := "type-" ++ cid, current_firm_version := "1.0"
    supports_dimmable := false, has_set_auto_mode := false
    has_turn_on_automatic_stop := false, has_turn_on_display := false
    has_turn_on_child_lock := false, state := sample_state }

/-- Sample device carrying all four probed capability methods. -/
def cap_device : VsDevice :=
  { mk_device "hum-1" with
    has_set_auto_mode := true, has_turn_on_automatic_stop := true
    has_turn_on_display := true, has_turn_on_child_lock := true }

/-- Sample device with a sub-device index, for the identity witness. -/
def sub_device : VsDevice := { mk_device "cid-6" with sub_device_no := some 3 }

/-- Sample metered outlet: its state carries a weekly-history attribute. -/
def metered_outlet : VsDevice :=
  { mk_device "outlet-1" with
    state := { sample_state with
      has_weekly_history := true, voltage := 230, weekly_history := 5
      monthly_history := 20, yearly_history := 240 } }

/-- Manager holding one fan, one purifier and one humidifier. -/
def manager_fph : ManagerDevices :=
  { fans := [mk_device "fan-1"], air_purifiers := [mk_device "pur-1"]
    humidifiers := [mk_device "hum-2"], bulbs := [], outlets := []
    switches := [], air_fryers := [] }

/-- Manager holding exactly one outlet and nothing else. -/
def manager_one_outlet : ManagerDevices :=
  { fans := [], air_purifiers := [], humidifiers := [], bulbs := []
    outlets := [mk_device "outlet-2"], switches := [], air_fryers := [] }

/-- Manager with no device in any category. -/
def manager_empty : ManagerDevices :=
  { fans := [], air_purifiers := [], humidifiers := [], bulbs := []
    outlets := [], switches := [], air_fryers := [] }

/-- Manager holding one non-dimmable and one dimmable wall switch. -/
def manager_two_switches : ManagerDevices :=
  { fans := [], air_purifiers := [], humidifiers := [], bulbs := []
    outlets := []
    switches := [mk_device "sw-1", { mk_device "sw-2" with supports_dimmable := true }]
    air_fryers := [] }

theorem foldl_add_fan (l : List VsDevice) (d : PlatformDevices) :
    l.foldl add_fan d =
      { d with
        fans := d.fans ++ l, numbers := d.numbers ++ l
        switches := d.switches ++ l, sensors := d.sensors ++ l
        binary_sensors := d.binary_sensors ++ l, lights := d.lights ++ l } := by
  induction l generalizing d with
  | nil => simp
  | cons x xs ih => simp [add_fan, ih, List.append_assoc]

theorem foldl_add_humidifier (l : List VsDevice) (d : PlatformDevices) :
    l.foldl add_humidifier d =
      { d with
        humidifiers := d.humidifiers ++ l, numbers := d.numbers ++ l
        switches := d.switches ++ l, sensors := d.sensors ++ l
        binary_sensors := d.binary_sensors ++ l, lights := d.lights ++ l } := by
  induction l generalizing d with
  | nil => simp
  | cons x xs ih => simp [add_humidifier, ih, List.append_assoc]

theorem foldl_add_switch (l : List VsDevice) (d : PlatformDevices) :
    l.foldl add_switch d =
      { d with
        switches := d.switches ++ l.filter (fun s => !s.supports_dimmable)
        lights := d.lights ++ l.filter (fun s => s.supports_dimmable) } := by
  induction l generalizing d with
  | nil => simp
  | cons x xs ih =>
    cases h : x.supports_dimmable <;>
      simp [add_switch, h, ih, List.filter_cons, List.append_assoc]

theorem foldl_add_air_fryer (l : List VsDevice) (d : PlatformDevices) :
    l.foldl add_air_fryer d =
      { d with
        sensors := d.sensors ++ l, binary_sensors := d.binary_sensors ++ l
        switches := d.switches ++ l, button := d.button ++ l } := by
  induction l generalizing d with
  | nil => simp
  | cons x xs ih => simp [add_air_fryer, ih, List.append_assoc]

/-- Closed form of the routing table produced by `async_process_devices`. -/
theorem async_process_devices_fst (m : ManagerDevices) :
    (async_process_devices m).1 =
      { switches := m.fans ++ m.air_purifiers ++ m.humidifiers ++ m.outlets
          ++ m.switches.filter (fun s => !s.supports_dimmable) ++ m.air_fryers
        fans := m.fans ++ m.air_purifiers
        lights := m.fans ++ m.air_purifiers ++ m.humidifiers ++ m.bulbs
          ++ m.switches.filter (fun s => s.supports_dimmable)
        sensors := m.fans ++ m.air_purifiers ++ m.humidifiers ++ m.outlets
          ++ m.air_fryers
        humidifiers := m.humidifiers
        numbers := m.fans ++ m.air_purifiers ++ m.humidifiers
        binary_sensors := m.fans ++ m.air_purifiers ++ m.humidifiers ++ m.air_fryers
        button := m.air_fryers } := by
  cases hb : m.bulbs <;> cases ho : m.outlets <;>
    simp [async_process_devices, hb, ho, foldl_add_fan, foldl_add_humidifier,
      foldl_add_switch, foldl_add_air_fryer, List.append_assoc]

theorem setup_step_eq (f : DevTypeToHa) (acc : List (SwitchEntityKind × VsDevice))
    (dev : VsDevice) : setup_step f acc dev = acc ++ entities_for f dev := by
  unfold setup_step entities_for
  split <;> split <;> split <;> split <;> split <;> split <;>
    simp [List.append_assoc]

theorem foldl_setup_step (f : DevTypeToHa) (l : List VsDevice)
    (acc : List (SwitchEntityKind × VsDevice)) :
    l.foldl (setup_step f) acc = acc ++ l.foldr (fun d r => entities_for f d ++ r) [] := by
  induction l generalizing acc with
  | nil => simp
  | cons x xs ih => simp [setup_step_eq, ih, List.append_assoc]

theorem mem_ite_singleton {α : Type} (a x : α) (c : Prop) [Decidable c]
    (h : a ∈ if c then [x] else ([] : List α)) : a = x := by
  split at h <;> simp_all

theorem entities_for_snd (f : DevTypeToHa) (d : VsDevice)
    (p : SwitchEntityKind × VsDevice) (hp : p ∈ entities_for f d) : p.2 = d := by
  unfold entities_for at hp
  simp only [List.mem_append] at hp
  rcases hp with ((((h | h) | h) | h) | h) | h <;>
    rw [mem_ite_singleton _ _ _ h]

theorem count_ite_single (k q : SwitchEntityKind) (dev : VsDevice)
    (c : Prop) [Decidable c] :
    ((if c then [(q, dev)] else []) : List (SwitchEntityKind × VsDevice)).count (k, dev)
      = if c ∧ q = k then 1 else 0 := by
  split
  · by_cases hq : q = k <;> simp_all [List.count_cons]
  · simp_all

theorem count_concat_entities (f : DevTypeToHa) (l : List VsDevice)
    (k : SwitchEntityKind) (dev : VsDevice) :
    (l.foldr (fun d r => entities_for f d ++ r) []).count (k, dev)
      = l.count dev * (entities_for f dev).count (k, dev) := by
  induction l with
  | nil => simp
  | cons x xs ih =>
    by_cases hx : x = dev
    · subst hx
      simp [List.count_append, ih, List.count_cons_self]
      ring
    · have hx' : dev ≠ x := fun h => hx h.symm
      have h0 : (entities_for f x).count (k, dev) = 0 := by
        rw [List.count_eq_zero]
        intro hmem
        exact hx (entities_for_snd f x (k, dev) hmem).symm
      simp [List.count_append, ih, h0, List.count_cons_of_ne hx']

theorem count_entities_for_auto_mode (f : DevTypeToHa) (dev : VsDevice) :
    (entities_for f dev).count (SwitchEntityKind.veSyncHumidifierAutoOnHA, dev)
      = if dev.has_set_auto_mode then 1 else 0 := by
  simp [entities_for, List.count_append, count_ite_single]

theorem count_entities_for_automatic_stop (f : DevTypeToHa) (dev : VsDevice) :
    (entities_for f dev).count (SwitchEntityKind.veSyncHumidifierAutomaticStopHA, dev)
      = if dev.has_turn_on_automatic_stop then 1 else 0 := by
  simp [entities_for, List.count_append, count_ite_single]

theorem count_entities_for_display (f : DevTypeToHa) (dev : VsDevice) :
    (entities_for f dev).count (SwitchEntityKind.veSyncHumidifierDisplayHA, dev)
      = if dev.has_turn_on_display then 1 else 0 := by
  simp [entities_for, List.count_append, count_ite_single]

theorem count_entities_for_child_lock (f : DevTypeToHa) (dev : VsDevice) :
    (entities_for f dev).count (SwitchEntityKind.veSyncFanChildLockHA, dev)
      = if dev.has_turn_on_child_lock then 1 else 0 := by
  simp [entities_for, List.count_append, count_ite_single]

theorem string_append_ne_of_length_ne (s a b : String) (h : a.length ≠ b.length) :
    s ++ a ≠ s ++ b := by
  intro he
  apply h
  have hl := congrArg String.length he
  simp only [String.length_append] at hl
  omega

/-- Claim C1: for every manager device collection, `async_process_devices`
places every device of the fans collection and every device of the
air_purifiers collection into each of the six platform lists fans,
numbers, switches, sensors, binary_sensors and lights, and places every
device of the humidifiers collection into each of the six lists
humidifiers, numbers, switches, sensors, binary_sensors and lights. -/
theorem claim_c1_multihoming (m : ManagerDevices) (dev : VsDevice) :
    ((dev ∈ m.fans ∨ dev ∈ m.air_purifiers) →
      dev ∈ (async_process_devices m).1.fans ∧
      dev ∈ (async_process_devices m).1.numbers ∧
      dev ∈ (async_process_devices m).1.switches ∧
      dev ∈ (async_process_devices m).1.sensors ∧
      dev ∈ (async_process_devices m).1.binary_sensors ∧
      dev ∈ (async_process_devices m).1.lights) ∧
    (dev ∈ m.humidifiers →
      dev ∈ (async_process_devices m).1.humidifiers ∧
      dev ∈ (async_process_devices m).1.numbers ∧
      dev ∈ (async_process_devices m).1.switches ∧
      dev ∈ (async_process_devices m).1.sensors ∧
      dev ∈ (async_process_devices m).1.binary_sensors ∧
      dev ∈ (async_process_devices m).1.lights) := by
  rw [async_process_devices_fst]
  constructor
  · rintro (h | h) <;> simp [List.mem_append, h]
  · intro h
    simp [List.mem_append, h]

/-- Witness for C1 at a concrete manager holding one fan, one purifier
and one humidifier. -/
theorem claim_c1_witness :
    (mk_device "fan-1" ∈ manager_fph.fans ∨ mk_device "fan-1" ∈ manager_fph.air_purifiers) ∧
    (mk_device "fan-1" ∈ (async_process_devices manager_fph).1.fans ∧
     mk_device "fan-1" ∈ (async_process_devices manager_fph).1.numbers ∧
     mk_device "fan-1" ∈ (async_process_devices manager_fph).1.switches ∧
     mk_device "fan-1" ∈ (async_process_devices manager_fph).1.sensors ∧
     mk_device "fan-1" ∈ (async_process_devices manager_fph).1.binary_sensors ∧
     mk_device "fan-1" ∈ (async_process_devices manager_fph).1.lights) ∧
    mk_device "hum-2" ∈ manager_fph.humidifiers ∧
    (mk_device "hum-2" ∈ (async_process_devices manager_fph).1.humidifiers ∧
     mk_device "hum-2" ∈ (async_process_devices manager_fph).1.numbers ∧
     mk_device "hum-2" ∈ (async_process_devices manager_fph).1.switches ∧
     mk_device "hum-2" ∈ (async_process_devices manager_fph).1.sensors ∧
     mk_device "hum-2" ∈ (async_process_devices manager_fph).1.binary_sensors ∧
     mk_device "hum-2" ∈ (async_process_devices manager_fph).1.lights) :=
  ⟨Or.inl (by simp [manager_fph]),
   (claim_c1_multihoming manager_fph (mk_device "fan-1")).1 (Or.inl (by simp [manager_fph])),
   by simp [manager_fph],
   (claim_c1_multihoming manager_fph (mk_device "hum-2")).2 (by simp [manager_fph])⟩

/-- Claim C2: for a manager whose device collection holds exactly one
outlet and nothing else, `async_process_devices` puts that outlet in the
switches list and in the sensors list, and every other platform list is
empty. -/
theorem claim_c2_single_outlet (m : ManagerDevices) (o : VsDevice)
    (houtlets : m.outlets = [o]) (hfans : m.fans = [])
    (hpur : m.air_purifiers = []) (hhum : m.humidifiers = [])
    (hbulbs : m.bulbs = []) (hsw : m.switches = []) (haf : m.air_fryers = []) :
    (async_process_devices m).1.switches = [o] ∧
    (async_process_devices m).1.sensors = [o] ∧
    (async_process_devices m).1.fans = [] ∧
    (async_process_devices m).1.lights = [] ∧
    (async_process_devices m).1.humidifiers = [] ∧
    (async_process_devices m).1.numbers = [] ∧
    (async_process_devices m).1.binary_sensors = [] ∧
    (async_process_devices m).1.button = [] := by
  rw [async_process_devices_fst]
  simp [houtlets, hfans, hpur, hhum, hbulbs, hsw, haf]

/-- Witness for C2 at the concrete one-outlet manager. -/
theorem claim_c2_witness :
    manager_one_outlet.outlets = [mk_device "outlet-2"] ∧
    (async_process_devices manager_one_outlet).1.switches = [mk_device "outlet-2"] ∧
    (async_process_devices manager_one_outlet).1.sensors = [mk_device "outlet-2"] ∧
    (async_process_devices manager_one_outlet).1.fans = [] ∧
    (async_process_devices manager_one_outlet).1.lights = [] ∧
    (async_process_devices manager_one_outlet).1.humidifiers = [] ∧
    (async_process_devices manager_one_outlet).1.numbers = [] ∧
    (async_process_devices manager_one_outlet).1.binary_sensors = [] ∧
    (async_process_devices manager_one_outlet).1.button = [] :=
  ⟨rfl, claim_c2_single_outlet manager_one_outlet (mk_device "outlet-2")
    rfl rfl rfl rfl rfl rfl rfl⟩

/-- Claim C3: for a manager empty in every category,
`async_process_devices` returns the routing table in which all eight
platform keys are present and bound to the empty list (a record field can
be neither absent nor null), and its only side effect is logging: the
redacted device-list debug message followed by the no-devices diagnostic
error message. -/
theorem claim_c3_empty_manager (m : ManagerDevices)
    (hfans : m.fans = []) (hpur : m.air_purifiers = []) (hhum : m.humidifiers = [])
    (hbulbs : m.bulbs = []) (houtlets : m.outlets = []) (hsw : m.switches = [])
    (haf : m.air_fryers = []) :
    (async_process_devices m).1 =
      { switches := [], fans := [], lights := [], sensors := []
        humidifiers := [], numbers := [], binary_sensors := [], button := [] } ∧
    (async_process_devices m).2 =
      [LogEvent.debugFoundDevices [], LogEvent.errorNoDevices []] := by
  constructor
  · rw [async_process_devices_fst]
    simp [hfans, hpur, hhum, hbulbs, houtlets, hsw, haf]
  · simp [async_process_devices, all_devices, async_redact_data,
      hfans, hpur, hhum, hbulbs, houtlets, hsw, haf]

/-- Witness for C3 at the concrete empty manager. -/
theorem claim_c3_witness :
    (async_process_devices manager_empty).1 =
      { switches := [], fans := [], lights := [], sensors := []
        humidifiers := [], numbers := [], binary_sensors := [], button := [] } ∧
    (async_process_devices manager_empty).2 =
      [LogEvent.debugFoundDevices [], LogEvent.errorNoDevices []] :=
  claim_c3_empty_manager manager_empty rfl rfl rfl rfl rfl rfl rfl

/-- Claim C4: every device of the manager's switches collection (and of
no other collection) is placed in the switches list when its
`supports_dimmable` flag is false and in the lights list when it is true,
and appears in exactly one of those two lists. -/
theorem claim_c4_switch_dimmable (m : ManagerDevices) (s : VsDevice)
    (hmem : s ∈ m.switches)
    (hfans : s ∉ m.fans) (hpur : s ∉ m.air_purifiers) (hhum : s ∉ m.humidifiers)
    (hbulbs : s ∉ m.bulbs) (houtlets : s ∉ m.outlets) (haf : s ∉ m.air_fryers) :
    (s.supports_dimmable = false →
      s ∈ (async_process_devices m).1.switches ∧
      s ∉ (async_process_devices m).1.lights) ∧
    (s.supports_dimmable = true →
      s ∈ (async_process_devices m).1.lights ∧
      s ∉ (async_process_devices m).1.switches) := by
  rw [async_process_devices_fst]
  constructor <;> intro hdim <;> constructor <;>
    simp [List.mem_append, List.mem_filter, hmem, hfans, hpur, hhum, hbulbs,
      houtlets, haf, hdim]

/-- Witness for C4 at the concrete two-switch manager, at its
non-dimmable switch. -/
theorem claim_c4_witness :
    mk_device "sw-1" ∈ manager_two_switches.switches ∧
    (mk_device "sw-1").supports_dimmable = false ∧
    mk_device "sw-1" ∈ (async_process_devices manager_two_switches).1.switches ∧
    mk_device "sw-1" ∉ (async_process_devices manager_two_switches).1.lights :=
  ⟨by simp [manager_two_switches], rfl,
   (claim_c4_switch_dimmable manager_two_switches (mk_device "sw-1")
      (by simp [manager_two_switches]) (by simp [manager_two_switches])
      (by simp [manager_two_switches]) (by simp [manager_two_switches])
      (by simp [manager_two_switches]) (by simp [manager_two_switches])
      (by simp [manager_two_switches])).1 rfl |>.1,
   (claim_c4_switch_dimmable manager_two_switches (mk_device "sw-1")
      (by simp [manager_two_switches]) (by simp [manager_two_switches])
      (by simp [manager_two_switches]) (by simp [manager_two_switches])
      (by simp [manager_two_switches]) (by simp [manager_two_switches])
      (by simp [manager_two_switches])).1 rfl |>.2⟩

/-- Claim C5: for every device handed to the switch platform's
`_setup_entities`, one switch adapter is constructed per present
capability method (auto-mode, automatic-stop, display, child-lock) and
none when the method is absent, whatever the device's primary category
(the theorem quantifies over the type-to-platform lookup and over the
device's type string). -/
theorem claim_c5_capability_adapters (f : DevTypeToHa) (devices : List VsDevice)
    (dev : VsDevice) (hcount : devices.count dev = 1) :
    ((_setup_entities f devices).count (SwitchEntityKind.veSyncHumidifierAutoOnHA, dev)
        = if dev.has_set_auto_mode then 1 else 0) ∧
    ((_setup_entities f devices).count (SwitchEntityKind.veSyncHumidifierAutomaticStopHA, dev)
        = if dev.has_turn_on_automatic_stop then 1 else 0) ∧
    ((_setup_entities f devices).count (SwitchEntityKind.veSyncHumidifierDisplayHA, dev)
        = if dev.has_turn_on_display then 1 else 0) ∧
    ((_setup_entities f devices).count (SwitchEntityKind.veSyncFanChildLockHA, dev)
        = if dev.has_turn_on_child_lock then 1 else 0) := by
  unfold _setup_entities
  rw [foldl_setup_step]
  simp [count_concat_entities, hcount, count_entities_for_auto_mode,
    count_entities_for_automatic_stop, count_entities_for_display,
    count_entities_for_child_lock]

/-- Witness for C5: a fully-capable device next to a capability-free one,
with an empty type lookup. -/
theorem claim_c5_witness :
    ([cap_device, mk_device "plain-1"].count cap_device = 1) ∧
    (((_setup_entities (fun _ => none) [cap_device, mk_device "plain-1"]).count
        (SwitchEntityKind.veSyncHumidifierAutoOnHA, cap_device)
      = if cap_device.has_set_auto_mode then 1 else 0) ∧
    ((_setup_entities (fun _ => none) [cap_device, mk_device "plain-1"]).count
        (SwitchEntityKind.veSyncHumidifierAutomaticStopHA, cap_device)
      = if cap_device.has_turn_on_automatic_stop then 1 else 0) ∧
    ((_setup_entities (fun _ => none) [cap_device, mk_device "plain-1"]).count
        (SwitchEntityKind.veSyncHumidifierDisplayHA, cap_device)
      = if cap_device.has_turn_on_display then 1 else 0) ∧
    ((_setup_entities (fun _ => none) [cap_device, mk_device "plain-1"]).count
        (SwitchEntityKind.veSyncFanChildLockHA, cap_device)
      = if cap_device.has_turn_on_child_lock then 1 else 0)) :=
  ⟨by decide,
   claim_c5_capability_adapters (fun _ => none) [cap_device, mk_device "plain-1"]
     cap_device (by decide)⟩

/-- Claim C6: the unique_id of each derived feature adapter equals the
device's base id (cid, concatenated with the sub-device index when that
index is an integer) followed by the feature's fixed suffix; it is a
function of the device alone, so it is identical across repeated
construction, and the four feature adapters of one device all have
pairwise distinct unique ids. -/
theorem claim_c6_unique_ids (d : VsDevice) :
    VeSyncFanChildLockHA.unique_id d
      = VeSyncBaseEntity.base_unique_id d ++ "-child-lock" ∧
    VeSyncHumidifierDisplayHA.unique_id d
      = VeSyncBaseEntity.base_unique_id d ++ "-display" ∧
    VeSyncHumidifierAutomaticStopHA.unique_id d
      = VeSyncBaseEntity.base_unique_id d ++ "-automatic-stop" ∧
    VeSyncHumidifierAutoOnHA.unique_id d
      = VeSyncBaseEntity.base_unique_id d ++ "-auto-mode" ∧
    (∀ n : Int, d.sub_device_no = some n →
      VeSyncBaseEntity.base_unique_id d = d.cid ++ toString n) ∧
    (d.sub_device_no = none → VeSyncBaseEntity.base_unique_id d = d.cid) ∧
    VeSyncFanChildLockHA.unique_id d ≠ VeSyncHumidifierDisplayHA.unique_id d ∧
    VeSyncFanChildLockHA.unique_id d ≠ VeSyncHumidifierAutomaticStopHA.unique_id d ∧
    VeSyncFanChildLockHA.unique_id d ≠ VeSyncHumidifierAutoOnHA.unique_id d ∧
    VeSyncHumidifierDisplayHA.unique_id d ≠ VeSyncHumidifierAutomaticStopHA.unique_id d ∧
    VeSyncHumidifierDisplayHA.unique_id d ≠ VeSyncHumidifierAutoOnHA.unique_id d ∧
    VeSyncHumidifierAutomaticStopHA.unique_id d ≠ VeSyncHumidifierAutoOnHA.unique_id d := by
  refine ⟨rfl, rfl, rfl, rfl, ?_, ?_, ?_, ?_, ?_, ?_, ?_, ?_⟩
  · intro n hn
    simp [VeSyncBaseEntity.base_unique_id, hn]
  · intro hn
    simp [VeSyncBaseEntity.base_unique_id, hn]
  all_goals
    exact string_append_ne_of_length_ne _ _ _ (by decide)

/-- Witness for C6 at a device with sub-device index 3. -/
theorem claim_c6_witness :
    VeSyncBaseEntity.base_unique_id sub_device
      = sub_device.cid ++ toString (3 : Int) ∧
    VeSyncFanChildLockHA.unique_id sub_device
      ≠ VeSyncHumidifierDisplayHA.unique_id sub_device := by
  obtain ⟨h1, h2, h3, h4, h5, h6, h7, h8, h9, h10, h11, h12⟩ :=
    claim_c6_unique_ids sub_device
  exact ⟨h5 3 rfl, h7⟩

/-- Claim C7: an entity adapter is available exactly when the wrapped
device state's connection status is the string online; any other status,
including a missing (`None`) status, yields unavailable. -/
theorem claim_c7_available (d : VsDevice) :
    VeSyncBaseEntity.available d = true ↔
      d.state.connection_status = some "online" := by
  simp [VeSyncBaseEntity.available]

/-- Witness for C7 at a concrete online device. -/
theorem claim_c7_witness :
    VeSyncBaseEntity.available (mk_device "dev-7") = true ↔
      (mk_device "dev-7").state.connection_status = some "online" :=
  claim_c7_available (mk_device "dev-7")

/-- Claim C8: an outlet switch adapter's `extra_state_attributes` is the
empty mapping when the device state has no weekly-history attribute, and
exactly the four keys voltage, weekly_energy_total, monthly_energy_total
and yearly_energy_total, taken from the state's voltage and history
fields, when it has one. -/
theorem claim_c8_extra_attributes (d : VsDevice) :
    (d.state.has_weekly_history = false →
      VeSyncSwitchHA.extra_state_attributes d = []) ∧
    (d.state.has_weekly_history = true →
      VeSyncSwitchHA.extra_state_attributes d =
        [("voltage", d.state.voltage),
         ("weekly_energy_total", d.state.weekly_history),
         ("monthly_energy_total", d.state.monthly_history),
         ("yearly_energy_total", d.state.yearly_history)]) := by
  constructor <;> intro h <;> simp [VeSyncSwitchHA.extra_state_attributes, h]

/-- Witness for C8: a metered outlet and an unmetered device. -/
theorem claim_c8_witness :
    metered_outlet.state.has_weekly_history = true ∧
    VeSyncSwitchHA.extra_state_attributes metered_outlet =
      [("voltage", 230), ("weekly_energy_total", 5),
       ("monthly_energy_total", 20), ("yearly_energy_total", 240)] ∧
    (mk_device "plain-8").state.has_weekly_history = false ∧
    VeSyncSwitchHA.extra_state_attributes (mk_device "plain-8") = [] :=
  ⟨rfl, (claim_c8_extra_attributes metered_outlet).2 rfl,
   rfl, (claim_c8_extra_attributes (mk_device "plain-8")).1 rfl⟩

/-- Claim C9: `async_get_config_entry_diagnostics` returns the empty
mapping for every system state and config entry, so the dump holds no
device information and is identical for any two system states. -/
theorem claim_c9_diagnostics_empty (h1 h2 : HassData) (e1 e2 : ConfigEntry) :
    async_get_config_entry_diagnostics h1 e1 = [] ∧
    async_get_config_entry_diagnostics h1 e1
      = async_get_config_entry_diagnostics h2 e2 :=
  ⟨rfl, rfl⟩

/-- Witness for C9 at two different system states. -/
theorem claim_c9_witness :
    async_get_config_entry_diagnostics ⟨manager_fph⟩ ⟨"entry-1"⟩ = [] ∧
    async_get_config_entry_diagnostics ⟨manager_fph⟩ ⟨"entry-1"⟩
      = async_get_config_entry_diagnostics ⟨manager_empty⟩ ⟨"entry-2"⟩ :=
  claim_c9_diagnostics_empty ⟨manager_fph⟩ ⟨manager_empty⟩ ⟨"entry-1"⟩ ⟨"entry-2"⟩

/-- Claim C10: the auto-mode switch adapter's `async_turn_off` issues
exactly `set_manual_mode` followed by `set_mist_level 1`, and its
`async_turn_on` issues exactly `set_auto_mode`; neither issues any other
vendor command. -/
theorem claim_c10_auto_mode_traces (d : VsDevice) :
    VeSyncHumidifierAutoOnHA.async_turn_off d =
      [VendorCommand.set_manual_mode, VendorCommand.set_mist_level 1] ∧
    VeSyncHumidifierAutoOnHA.async_turn_on d = [VendorCommand.set_auto_mode] :=
  ⟨rfl, rfl⟩

/-- Witness for C10 at the capable sample device. -/
theorem claim_c10_witness :
    VeSyncHumidifierAutoOnHA.async_turn_off cap_device =
      [VendorCommand.set_manual_mode, VendorCommand.set_mist_level 1] ∧
    VeSyncHumidifierAutoOnHA.async_turn_on cap_device = [VendorCommand.set_auto_mode] :=
  claim_c10_auto_mode_traces cap_device
